import Mathlib

/-!
Verification development for the DocRAG question-answering system.

This file gives a shallow embedding of the retrieval-index cache, the
question-complexity classifier, the query-answer cache and the batch query
executor of the repository (files `api.py`, `rag_logic.py`, `flask_app.py`),
and proves or refutes the specification's claims about them.

Modelling conventions:
- Python strings are modelled as `List Char`; Python string primitives
  (`in`, `str.count`, `str.split`, `str.strip`, `str.lower`) are translated
  as executable Lean functions with the same semantics (non-overlapping
  substring count, whitespace-run splitting, ASCII lowering).
- SHA-256 / MD5 digests are modelled by an abstract function parameter (for
  the fingerprint) or by keying maps directly with the pre-hash string: a
  deterministic digest maps equal inputs to equal outputs, which is the only
  property the claims use.
- External collaborators (document download + parse, embedding, the LLM
  chain) are parameters of the functions that call them: `Ingest` returns
  the passages extracted from one locator or an error, and the synthesis
  chain is a function from the question to its (possibly failing) result.
- Python dictionaries are association lists (`List (key × value)`) with
  `List.lookup`; insertion is modelled by prepending, which shadows older
  bindings exactly as assignment overwrites them.
- Mutable module-level state (`FAISS_CACHE`, the query cache, counters) is
  threaded explicitly as state records.
-/

namespace DocRAG

/- ------------------------------------------------------------------ -/
/- Python string primitives over `List Char`                           -/
/- ------------------------------------------------------------------ -/

/-- Python `str.lower` (ASCII case folding, which covers every string
appearing in the code's keyword tables). -/
def lowerStr (s : List Char) : List Char := s.map Char.toLower

/-- Does `pat` occur at the head of the first argument?  Used to model
Python substring search. -/
def startsWithStr : List Char → List Char → Bool
  | _, [] => true
  | [], _ :: _ => false
  | a :: as, b :: bs => a == b && startsWithStr as bs

/-- Python `pat in hay` (substring containment). -/
def containsStr (hay pat : List Char) : Bool :=
  match hay with
  | [] => pat.isEmpty
  | _ :: t => startsWithStr hay pat || containsStr t pat

/-- Helper for `countSubStr`: the `Nat` argument is the number of characters
still to be skipped after a match was consumed, giving Python's
non-overlapping left-to-right `str.count` semantics for a non-empty
pattern. -/
def countSubAux (pat : List Char) : Nat → List Char → Nat
  | _, [] => 0
  | Nat.succ k, _ :: t => countSubAux pat k t
  | 0, h :: t =>
      if startsWithStr (h :: t) pat then 1 + countSubAux pat (pat.length - 1) t
      else countSubAux pat 0 t

/-- Python `hay.count(pat)` for a non-empty `pat`: number of non-overlapping
occurrences, scanning left to right. -/
def countSubStr (hay pat : List Char) : Nat := countSubAux pat 0 hay

/-- The whitespace characters recognized by Python's `str.split()` and
`str.strip()` for ASCII text. -/
def isPySpace (c : Char) : Bool :=
  c == ' ' || c == '\t' || c == '\n' || c == '\r' || c == '\x0b' || c == '\x0c'

/-- Helper for `countWords`: the flag records whether the scanner is inside
a word. -/
def countWordsAux : Bool → List Char → Nat
  | _, [] => 0
  | inWord, c :: t =>
      if isPySpace c then countWordsAux false t
      else (if inWord then 0 else 1) + countWordsAux true t

/-- Python `len(s.split())`: the number of maximal whitespace-free runs. -/
def countWords (s : List Char) : Nat := countWordsAux false s

/-- Python `s.strip()`: drop leading and trailing whitespace. -/
def stripStr (s : List Char) : List Char :=
  ((s.dropWhile isPySpace).reverse.dropWhile isPySpace).reverse

/- ------------------------------------------------------------------ -/
/- Lexicographic order on strings, as used by Python `sorted`           -/
/- ------------------------------------------------------------------ -/

/-- Python's `<=` on strings: lexicographic comparison by code point. -/
def lexLe : List Char → List Char → Bool
  | [], _ => true
  | _ :: _, [] => false
  | a :: as, b :: bs =>
      if a.toNat < b.toNat then true
      else if b.toNat < a.toNat then false
      else lexLe as bs

/-- `lexLe` as a relation, for use with `List.insertionSort`. -/
def strLe (a b : List Char) : Prop := lexLe a b = true

instance : DecidableRel strLe := fun a b => inferInstanceAs (Decidable (lexLe a b = true))

theorem char_toNat_inj {a b : Char} (h : a.toNat = b.toNat) : a = b :=
  Char.ext (UInt32.ext h)

theorem lexLe_head {x y : Char} {xs ys : List Char} (h : lexLe (x :: xs) (y :: ys) = true) :
    x.toNat ≤ y.toNat := by
  simp only [lexLe] at h
  by_cases h1 : x.toNat < y.toNat
  · omega
  · by_cases h2 : y.toNat < x.toNat
    · simp [h1, h2] at h
    · omega

theorem lexLe_total (a b : List Char) : lexLe a b = true ∨ lexLe b a = true := by
  induction a generalizing b with
  | nil => left; rfl
  | cons x xs ih =>
    cases b with
    | nil => right; rfl
    | cons y ys =>
      simp only [lexLe]
      rcases Nat.lt_trichotomy x.toNat y.toNat with h | h | h
      · left; simp [h]
      · have hn1 : ¬ x.toNat < y.toNat := by omega
        have hn2 : ¬ y.toNat < x.toNat := by omega
        rcases ih ys with h2 | h2 <;> simp_all
      · right; simp [h]

theorem lexLe_antisymm {a b : List Char} (h1 : lexLe a b = true) (h2 : lexLe b a = true) :
    a = b := by
  induction a generalizing b with
  | nil =>
    cases b with
    | nil => rfl
    | cons y ys => simp [lexLe] at h2
  | cons x xs ih =>
    cases b with
    | nil => simp [lexLe] at h1
    | cons y ys =>
      have hxy := lexLe_head h1
      have hyx := lexLe_head h2
      have he : x.toNat = y.toNat := by omega
      have hx : x = y := char_toNat_inj he
      subst hx
      simp only [lexLe, Nat.lt_irrefl, if_false] at h1 h2
      rw [ih h1 h2]

theorem lexLe_trans {a b c : List Char} (h1 : lexLe a b = true) (h2 : lexLe b c = true) :
    lexLe a c = true := by
  induction a generalizing b c with
  | nil => rfl
  | cons x xs ih =>
    cases b with
    | nil => simp [lexLe] at h1
    | cons y ys =>
      cases c with
      | nil => simp [lexLe] at h2
      | cons z zs =>
        have hxy := lexLe_head h1
        have hyz := lexLe_head h2
        simp only [lexLe] at h1 h2 ⊢
        rcases Nat.lt_or_ge x.toNat z.toNat with hxz | hxz
        · simp [hxz]
        · have he1 : x.toNat = y.toNat := by omega
          have he2 : y.toNat = z.toNat := by omega
          have hx : x = y := char_toNat_inj he1
          have hy : y = z := char_toNat_inj he2
          subst hx; subst hy
          simp only [Nat.lt_irrefl, if_false] at h1 h2 ⊢
          exact ih h1 h2

instance : IsTotal (List Char) strLe := ⟨lexLe_total⟩
instance : IsTrans (List Char) strLe := ⟨fun _ _ _ => lexLe_trans⟩
instance : IsAntisymm (List Char) strLe := ⟨fun _ _ => lexLe_antisymm⟩

/- ------------------------------------------------------------------ -/
/- Fingerprinter (api.py line 155, flask_app.py lines 103 and 114)     -/
/- ------------------------------------------------------------------ -/

/-- Python `sorted(urls)`: the locator list in lexicographic order. -/
def sortedLocators (urls : List (List Char)) : List (List Char) :=
  List.insertionSort strLe urls

/-- The string that the code hashes:
`"".join(sorted(urls))` — the sorted locators concatenated with no
separator (api.py line 155). -/
def fingerprintInput (urls : List (List Char)) : List Char :=
  (sortedLocators urls).flatten

/-- `hashlib.sha256("".join(sorted(urls)).encode()).hexdigest()`, with the
SHA-256 hexdigest abstracted as a function parameter `h` (any deterministic
digest maps equal inputs to equal outputs, which is all the claims use). -/
def fingerprint (h : List Char → List Char) (urls : List (List Char)) : List Char :=
  h (fingerprintInput urls)

/-- A sort is determined by the multiset of its input: two permutations of
each other have equal `sortedLocators`. -/
theorem sortedLocators_perm_inv (l l' : List (List Char)) (h : l.Perm l') :
    sortedLocators l = sortedLocators l' := by
  unfold sortedLocators
  apply List.eq_of_perm_of_sorted (r := strLe)
  · exact ((List.perm_insertionSort _ l).trans h).trans (List.perm_insertionSort _ l').symm
  · exact List.sorted_insertionSort _ l
  · exact List.sorted_insertionSort _ l'

/-- Claim C5: for every list of locator strings and every permutation of
that list, `fingerprint` returns an identical value — the document-set key
is invariant under reordering of the locators (api.py line 155 sorts the
URLs before concatenating and hashing). -/
theorem fingerprint_perm_invariant (h : List Char → List Char)
    (l l' : List (List Char)) (hp : l.Perm l') :
    fingerprint h l = fingerprint h l' := by
  unfold fingerprint fingerprintInput
  rw [sortedLocators_perm_inv l l' hp]

/-- Witness for C5 at a concrete permutation of a two-element locator
list. -/
theorem fingerprint_perm_invariant_witness :
    (["b".data, "a".data] : List (List Char)).Perm ["a".data, "b".data]
    ∧ fingerprint (fun s => s) ["b".data, "a".data]
        = fingerprint (fun s => s) ["a".data, "b".data] :=
  ⟨by decide, fingerprint_perm_invariant (fun s => s) _ _ (by decide)⟩

/- ------------------------------------------------------------------ -/
/- Retrieval Strategy Selector (api.py lines 210-251)                  -/
/- ------------------------------------------------------------------ -/

/-- The fixed high-complexity keyword list of
`classify_question_complexity` (api.py lines 215-219).  Note that
`"interaction"` appears twice, exactly as in the source. -/
def high_complexity_indicators : List (List Char) :=
  ["compare", "analyze", "relationship", "interaction", "simultaneously",
   "while", "also request", "also ask", "both", "multiple", "various", "different",
   "scenario", "interaction", "contrast", "evaluate"].map String.data

/-- The medium-complexity keyword list (api.py lines 222-225). -/
def medium_complexity_indicators : List (List Char) :=
  ["covered", "eligible", "benefit", "claim", "waiting period", "exclusion",
   "limitation", "condition", "procedure", "process", "requirement"].map String.data

/-- The simple-question indicator list (api.py line 228). -/
def simple_indicators : List (List Char) :=
  ["what is", "define", "meaning", "who is", "when", "where"].map String.data

/-- api.py lines 210-251, translated clause by clause:
`sum(1 for indicator in high_complexity_indicators if indicator in question_lower)`
adds 1 per LIST ENTRY whose text occurs in the lowered question (so the
duplicated `"interaction"` can contribute 2, and repeating a keyword in the
question contributes only 1); then the `'?'`-count minus one (which may be
negative), the comma count integer-divided by 2, the counts of `" and "`
and `" or "` in the ORIGINAL (un-lowered) question, and the word-length
bonus; finally the tier decision. -/
def classify_question_complexity (question : List Char) : String :=
  let question_lower := lowerStr question
  let complexity_score : Int :=
    (high_complexity_indicators.countP (fun indicator => containsStr question_lower indicator) : Nat)
    + ((question.count '?' : Int) - 1)
    + ((question.count ',' / 2 : Nat) : Int)
    + ((countSubStr question " and ".data : Nat) : Int)
    + ((countSubStr question " or ".data : Nat) : Int)
    + (if countWords question > 25 then 2 else if countWords question > 15 then 1 else 0)
  if complexity_score ≥ 4 then "complex"
  else if complexity_score ≥ 2
      ∨ medium_complexity_indicators.any (fun indicator => containsStr question_lower indicator) then "medium"
  else if simple_indicators.any (fun indicator => containsStr question_lower indicator) then "simple"
  else "medium"

/-- The spec's reference score exactly as the claim words it: 1 **for each
occurrence** of each high-complexity keyword (not 1 per keyword present),
plus the other four terms, which are undisputed. -/
def spec_occurrence_score (question : List Char) : Int :=
  let question_lower := lowerStr question
  ((high_complexity_indicators.map (fun indicator => countSubStr question_lower indicator)).sum : Nat)
  + ((question.count '?' : Int) - 1)
  + ((question.count ',' / 2 : Nat) : Int)
  + ((countSubStr question " and ".data : Nat) : Int)
  + ((countSubStr question " or ".data : Nat) : Int)
  + (if countWords question > 25 then 2 else if countWords question > 15 then 1 else 0)

/-- The tier the claim's reference formula assigns: the spec's tier rule
applied to the per-occurrence score. -/
def spec_occurrence_tier (question : List Char) : String :=
  if spec_occurrence_score question ≥ 4 then "complex"
  else if spec_occurrence_score question ≥ 2
      ∨ medium_complexity_indicators.any (fun indicator => containsStr (lowerStr question) indicator) then "medium"
  else if simple_indicators.any (fun indicator => containsStr (lowerStr question) indicator) then "simple"
  else "medium"

/-- Keyword term as the amended spec words it: 1 for each entry of the
fixed high-complexity list that occurs as a substring of the lowered
question — presence per list entry, not occurrence count. -/
def spec_keyword_term (question : List Char) : Int :=
  (high_complexity_indicators.countP (fun indicator => containsStr (lowerStr question) indicator) : Nat)

/-- Spec term: `(count of '?') − 1`, not floored at 0. -/
def spec_multi_question_term (question : List Char) : Int :=
  (question.count '?' : Int) - 1

/-- Spec term: `(count of ',') // 2`. -/
def spec_clause_term (question : List Char) : Int :=
  ((question.count ',' / 2 : Nat) : Int)

/-- Spec term: `(count of " and ") + (count of " or ")`. -/
def spec_operator_term (question : List Char) : Int :=
  ((countSubStr question " and ".data : Nat) : Int)
  + ((countSubStr question " or ".data : Nat) : Int)

/-- Spec term: 2 if more than 25 words, else 1 if more than 15 words. -/
def spec_length_term (question : List Char) : Int :=
  if countWords question > 25 then 2 else if countWords question > 15 then 1 else 0

/-- The amended reference score: the five terms of the spec with the
keyword term counting presence per list entry. -/
def spec_presence_score (question : List Char) : Int :=
  spec_keyword_term question + spec_multi_question_term question
  + spec_clause_term question + spec_operator_term question + spec_length_term question

/-- The amended reference tier: `complex` if the score is at least 4; else
`medium` if the score is at least 2 or a medium keyword is present; else
`simple` if a simple indicator is present; else `medium`. -/
def spec_presence_tier (question : List Char) : String :=
  if spec_presence_score question ≥ 4 then "complex"
  else if spec_presence_score question ≥ 2
      ∨ medium_complexity_indicators.any (fun indicator => containsStr (lowerStr question) indicator) then "medium"
  else if simple_indicators.any (fun indicator => containsStr (lowerStr question) indicator) then "simple"
  else "medium"

/-- Counterexample to claim C6: on
`"compare compare compare compare compare"` the claim's per-occurrence
reference formula scores 5 − 1 = 4 and classifies `complex`, but the code
adds only 1 for the keyword `"compare"` being present (score 0) and
returns `medium` — so `classify` does not compute the claimed score. -/
theorem classify_occurrence_cex :
    spec_occurrence_tier "compare compare compare compare compare".data = "complex"
    ∧ classify_question_complexity "compare compare compare compare compare".data = "medium" := by
  constructor
  · decide
  · decide

/-- Claim C6 (amended): `classify_question_complexity` computes exactly the
spec's reference tier once the keyword term counts 1 per list entry
present as a substring (rather than per occurrence): the five score terms
and the tier decision agree with the spec's wording on every question. -/
theorem classify_matches_spec_presence (question : List Char) :
    classify_question_complexity question = spec_presence_tier question := by
  have hscore : spec_presence_score question =
      ((high_complexity_indicators.countP
          (fun indicator => containsStr (lowerStr question) indicator) : Nat) : Int)
      + ((question.count '?' : Int) - 1)
      + ((question.count ',' / 2 : Nat) : Int)
      + ((countSubStr question " and ".data : Nat) : Int)
      + ((countSubStr question " or ".data : Nat) : Int)
      + spec_length_term question := by
    unfold spec_presence_score spec_keyword_term spec_multi_question_term
      spec_clause_term spec_operator_term
    ring
  unfold classify_question_complexity spec_presence_tier
  rw [hscore]
  unfold spec_length_term
  rfl

/- ------------------------------------------------------------------ -/
/- Index Cache: api.py get_retriever (lines 147-207)                   -/
/- ------------------------------------------------------------------ -/

/-- The `documents` field of a request:
`Optional[Union[str, List[str]]]` — absent, a single URL string, or a list
of URL strings. -/
inductive ReqDocs where
  | absent : ReqDocs
  | one : List Char → ReqDocs
  | many : List (List Char) → ReqDocs
deriving DecidableEq

/-- Python truthiness of `request_docs` as tested by
`if not request_docs:` (api.py line 149): `None`, `""` and `[]` are all
falsy. -/
def ReqDocs.isFalsy : ReqDocs → Bool
  | .absent => true
  | .one s => s.isEmpty
  | .many l => l.isEmpty

/-- api.py line 154:
`urls = request_docs if isinstance(request_docs, list) else [request_docs]`.
(The `absent` case never reaches this line — it is guarded by the falsy
check — and is mapped to `[]`.) -/
def ReqDocs.urls : ReqDocs → List (List Char)
  | .absent => []
  | .one s => [s]
  | .many l => l

/-- The external ingestion collaborator for one locator: the passages
extracted by download + format-specific parse + load (`loader.load()` /
`WebBaseLoader`), or the exception it raised.  Passages are opaque ids. -/
def Ingest : Type := List Char → Except String (List Nat)

/-- The document-collection loop of api.py lines 163-190: each locator is
ingested independently, a raised exception is absorbed (logged) and the
remaining locators are still processed; the extracted passages are
concatenated in order. -/
def extractAll (ingest : Ingest) : List (List Char) → List Nat
  | [] => []
  | u :: rest =>
      (match ingest u with
       | Except.ok docs => docs
       | Except.error _ => []) ++ extractAll ingest rest

/-- api.py lines 151 and 200:
`{"simple": 6, "medium": 8, "complex": 10}.get(complexity, 8)`. -/
def kFor (complexity : String) : Nat :=
  if complexity = "simple" then 6
  else if complexity = "medium" then 8
  else if complexity = "complex" then 10
  else 8

/-- Which vector store backs a retriever: the persistent Pinecone index or
a FAISS store identified by its build id. -/
inductive StoreSrc where
  | pinecone : StoreSrc
  | faiss : Nat → StoreSrc
deriving DecidableEq

/-- The retriever returned by `get_retriever`: its backing store, its
`search_kwargs` `k`, and whether it is wrapped in the
`ContextualCompressionRetriever` re-ranker. -/
structure Retriever where
  src : StoreSrc
  k : Nat
  reranked : Bool
deriving DecidableEq

/-- The module-level mutable state of api.py: `FAISS_CACHE` (in-memory map
from url-hash to a built store), the contents of the `faiss_indexes`
durable directory, a counter providing fresh store ids, and the number of
index builds performed (for counting ingestion/build invocations). -/
structure ApiState where
  faissCache : List (List Char × Nat)
  faissDir : List (List Char × Nat)
  nextId : Nat
  builds : Nat
deriving DecidableEq

/-- api.py lines 147-207, `get_retriever(request_docs, complexity)`.

The returned triple carries the retriever, the module state after the call,
and a flag recording whether the Fingerprint-keyed `FAISS_CACHE` was
consulted (false exactly on the `not request_docs` early return, which
computes no fingerprint).  The cache is keyed by the pre-hash string
`"".join(sorted(urls))` (the SHA-256 hexdigest of line 155 is injective on
inputs, so keying by its argument preserves all hit/miss behavior).
Failure is the `HTTPException(500, "Could not load ...")` of line 193.

Note the two faithful quirks: the cache-miss build stores the new index in
`FAISS_CACHE` only — nothing is written to the durable `faiss_indexes`
directory — and the Pinecone early return never applies re-ranking even for
`complex`. -/
def get_retriever (ingest : Ingest) (request_docs : ReqDocs) (complexity : String)
    (s : ApiState) : Except String (Retriever × ApiState × Bool) :=
  if request_docs.isFalsy then
    Except.ok ({ src := StoreSrc.pinecone, k := kFor complexity, reranked := false }, s, false)
  else
    let urls := request_docs.urls
    let url_hash := fingerprintInput urls
    match s.faissCache.lookup url_hash with
    | Option.some vid =>
        Except.ok ({ src := StoreSrc.faiss vid, k := kFor complexity,
                     reranked := complexity == "complex" }, s, true)
    | Option.none =>
        let all_docs := extractAll ingest urls
        if all_docs.isEmpty then
          Except.error "Could not load or extract text from any of the provided documents."
        else
          let vid := s.nextId
          Except.ok ({ src := StoreSrc.faiss vid, k := kFor complexity,
                       reranked := complexity == "complex" },
                     { faissCache := (url_hash, vid) :: s.faissCache,
                       faissDir := s.faissDir,
                       nextId := s.nextId + 1,
                       builds := s.builds + 1 }, true)

/-- `n` resolve calls for the same request executed back to back, threading
the module state.  This models `n` concurrent callers: the Python body of
`get_retriever` is synchronous and contains no `await` point, so under
asyncio's cooperative scheduler each call runs atomically and any
concurrent execution is one of these sequential orders. -/
def get_retriever_iterate (ingest : Ingest) (request_docs : ReqDocs) (complexity : String) :
    Nat → ApiState → List (Except String Retriever) × ApiState
  | 0, s => ([], s)
  | Nat.succ n, s =>
      match get_retriever ingest request_docs complexity s with
      | Except.ok (r, s', _) =>
          let rest := get_retriever_iterate ingest request_docs complexity n s'
          (Except.ok r :: rest.1, rest.2)
      | Except.error e =>
          let rest := get_retriever_iterate ingest request_docs complexity n s
          (Except.error e :: rest.1, rest.2)

/-- api.py line 255-258: `process_claims` fixes `dominant = 'medium'` and
builds one retriever for the whole batch with that tier — the classifier is
not consulted. -/
def process_claims_retriever (ingest : Ingest) (request_docs : ReqDocs) (s : ApiState) :
    Except String (Retriever × ApiState × Bool) :=
  get_retriever ingest request_docs "medium" s

/- ------------------------------------------------------------------ -/
/- flask_app.py build_faiss_for_files (lines 83-111) and preload       -/
/- ------------------------------------------------------------------ -/

/-- The module-level state of flask_app.py: its `FAISS_CACHE`, the
`faiss_indexes` durable directory, and a fresh-id counter. -/
structure FlaskState where
  faissCache : List (List Char × Nat)
  faissDir : List (List Char × Nat)
  nextId : Nat
deriving DecidableEq

/-- flask_app.py lines 83-111, `build_faiss_for_files(file_paths)`: load
every file (absorbing per-file errors), return `(None, None)` if nothing
was extracted; otherwise build the index, compute the fingerprint of the
path list, `save_local` the index to the fingerprint-named directory under
`faiss_indexes`, and store the reloaded copy in `FAISS_CACHE` under the
fingerprint. -/
def build_faiss_for_files (load : Ingest) (file_paths : List (List Char)) (s : FlaskState) :
    Option (Nat × List Char) × FlaskState :=
  let all_docs := extractAll load file_paths
  if all_docs.isEmpty then (Option.none, s)
  else
    let vid := s.nextId
    let url_hash := fingerprintInput file_paths
    (Option.some (vid, url_hash),
     { faissCache := (url_hash, vid) :: s.faissCache,
       faissDir := (url_hash, vid) :: s.faissDir,
       nextId := s.nextId + 1 })

/-- api.py lines 136-144, `preload_faiss()`: at startup every index
persisted in the `faiss_indexes` directory is loaded into `FAISS_CACHE`
under its stored fingerprint, giving a cold process a warm cache. -/
def preload_faiss (dir : List (List Char × Nat)) : ApiState :=
  { faissCache := dir, faissDir := dir, nextId := 0, builds := 0 }

/-- Equality on `Except` results is decidable when it is on both
components; needed to evaluate the model at concrete inputs. -/
instance {ε α : Type} [DecidableEq ε] [DecidableEq α] : DecidableEq (Except ε α) := fun x y =>
  match x, y with
  | Except.ok a, Except.ok b =>
      if h : a = b then Decidable.isTrue (by rw [h])
      else Decidable.isFalse (by intro hc; injection hc; contradiction)
  | Except.error e, Except.error f =>
      if h : e = f then Decidable.isTrue (by rw [h])
      else Decidable.isFalse (by intro hc; injection hc; contradiction)
  | Except.ok _, Except.error _ => Decidable.isFalse (by intro hc; exact Except.noConfusion hc)
  | Except.error _, Except.ok _ => Decidable.isFalse (by intro hc; exact Except.noConfusion hc)

/-- On a cache hit `get_retriever` returns the cached store unchanged:
no ingestion, no state change. -/
theorem get_retriever_cache_hit (ingest : Ingest) (docs : ReqDocs) (c : String)
    (s : ApiState) (vid : Nat)
    (hne : docs.isFalsy = false)
    (hhit : s.faissCache.lookup (fingerprintInput docs.urls) = Option.some vid) :
    get_retriever ingest docs c s =
      Except.ok ({ src := StoreSrc.faiss vid, k := kFor c, reranked := c == "complex" },
                 s, true) := by
  simp only [get_retriever, hne, Bool.false_eq_true, if_false, hhit]

/-- On a cache miss with at least one extracted passage `get_retriever`
builds a fresh store, counts one build, and commits the store to the
in-memory cache (and only there). -/
theorem get_retriever_cache_miss_build (ingest : Ingest) (docs : ReqDocs) (c : String)
    (s : ApiState)
    (hne : docs.isFalsy = false)
    (hmiss : s.faissCache.lookup (fingerprintInput docs.urls) = Option.none)
    (hdocs : extractAll ingest docs.urls ≠ []) :
    get_retriever ingest docs c s =
      Except.ok ({ src := StoreSrc.faiss s.nextId, k := kFor c, reranked := c == "complex" },
                 { faissCache := (fingerprintInput docs.urls, s.nextId) :: s.faissCache,
                   faissDir := s.faissDir,
                   nextId := s.nextId + 1,
                   builds := s.builds + 1 }, true) := by
  have hE : (extractAll ingest docs.urls).isEmpty = false := by
    cases h : extractAll ingest docs.urls with
    | nil => exact absurd h hdocs
    | cons a t => rfl
  simp only [get_retriever, hne, Bool.false_eq_true, if_false, hmiss, hE]

/-- Iterating resolve calls from a state that already holds the entry: every
call is a hit returning the same store, and the state never changes. -/
theorem get_retriever_iterate_hit (ingest : Ingest) (docs : ReqDocs) (c : String)
    (s : ApiState) (vid : Nat) (n : Nat)
    (hne : docs.isFalsy = false)
    (hhit : s.faissCache.lookup (fingerprintInput docs.urls) = Option.some vid) :
    get_retriever_iterate ingest docs c n s =
      (List.replicate n
        (Except.ok { src := StoreSrc.faiss vid, k := kFor c, reranked := c == "complex" }), s) := by
  induction n with
  | zero => rfl
  | succ n ih =>
      simp only [get_retriever_iterate, get_retriever_cache_hit ingest docs c s vid hne hhit,
        ih, List.replicate]

/-- Claim C2: for a never-before-seen fingerprint, any number of resolve
calls for the same document set trigger exactly one index build, and every
caller receives the result of that single build.  `get_retriever` has no
`await` point, so asyncio executes each concurrent call atomically and a
concurrent execution is a sequential order of the calls, modelled by
`get_retriever_iterate`: the first call builds and commits the store, every
later call is a cache hit returning it. -/
theorem resolve_single_flight (ingest : Ingest) (docs : ReqDocs) (c : String)
    (s : ApiState) (n : Nat)
    (hne : docs.isFalsy = false)
    (hmiss : s.faissCache.lookup (fingerprintInput docs.urls) = Option.none)
    (hdocs : extractAll ingest docs.urls ≠ []) :
    (get_retriever_iterate ingest docs c (n + 1) s).2.builds = s.builds + 1
    ∧ ∃ r : Retriever,
        (get_retriever_iterate ingest docs c (n + 1) s).1 =
          List.replicate (n + 1) (Except.ok r) := by
  have h1 := get_retriever_cache_miss_build ingest docs c s hne hmiss hdocs
  have hhit' : (ApiState.mk ((fingerprintInput docs.urls, s.nextId) :: s.faissCache)
      s.faissDir (s.nextId + 1) (s.builds + 1)).faissCache.lookup
        (fingerprintInput docs.urls) = Option.some s.nextId := by
    simp [List.lookup]
  have hiter := get_retriever_iterate_hit ingest docs c _ s.nextId n hne hhit'
  constructor
  · simp only [get_retriever_iterate, h1, hiter]
  · refine ⟨{ src := StoreSrc.faiss s.nextId, k := kFor c, reranked := c == "complex" }, ?_⟩
    simp only [get_retriever_iterate, h1, hiter, List.replicate]

/-- Witness for C2: ten simultaneous resolve calls for the never-seen
document set `["u"]` from an empty cache perform exactly one build and all
return the same retriever. -/
theorem resolve_single_flight_witness :
    ((ReqDocs.many ["u".data]).isFalsy = false)
    ∧ ((ApiState.mk [] [] 0 0).faissCache.lookup
        (fingerprintInput (ReqDocs.many ["u".data]).urls) = Option.none)
    ∧ (extractAll (fun _ => Except.ok [0]) (ReqDocs.many ["u".data]).urls ≠ [])
    ∧ ((get_retriever_iterate (fun _ => Except.ok [0]) (ReqDocs.many ["u".data]) "medium"
          (9 + 1) (ApiState.mk [] [] 0 0)).2.builds = (ApiState.mk [] [] 0 0).builds + 1
       ∧ ∃ r : Retriever,
          (get_retriever_iterate (fun _ => Except.ok [0]) (ReqDocs.many ["u".data]) "medium"
            (9 + 1) (ApiState.mk [] [] 0 0)).1 = List.replicate (9 + 1) (Except.ok r)) :=
  ⟨by decide, by decide, by decide,
   resolve_single_flight (fun _ => Except.ok [0]) (ReqDocs.many ["u".data]) "medium"
     (ApiState.mk [] [] 0 0) 9 (by decide) (by decide) (by decide)⟩

/-- Claim C8: for a non-empty document set on a cache miss, resolve fails
(with the HTTP 500 "could not load" error, the spec's `IngestionError`)
exactly when zero passages were extracted across all locators.  The
quantification over `ingest` covers per-locator failures: each locator's
exception is absorbed by `extractAll` and the others still contribute, so
one failing locator plus one passage-producing locator falls in the
successful side of the bi-implication. -/
theorem resolve_fails_iff_no_passages (ingest : Ingest) (docs : ReqDocs) (c : String)
    (s : ApiState)
    (hne : docs.isFalsy = false)
    (hmiss : s.faissCache.lookup (fingerprintInput docs.urls) = Option.none) :
    (get_retriever ingest docs c s =
        Except.error "Could not load or extract text from any of the provided documents.")
      ↔ extractAll ingest docs.urls = [] := by
  constructor
  · intro h
    by_contra hdocs
    rw [get_retriever_cache_miss_build ingest docs c s hne hmiss hdocs] at h
    exact Except.noConfusion h
  · intro h
    simp only [get_retriever, hne, Bool.false_eq_true, if_false, hmiss, h, List.isEmpty_nil,
      if_true]

/-- Witness for C8, both sides: a document set whose single locator raises
resolves to the ingestion error, and one failing locator next to one
passage-producing locator resolves successfully. -/
theorem resolve_fails_iff_no_passages_witness :
    ((ReqDocs.many ["u".data]).isFalsy = false)
    ∧ ((ApiState.mk [] [] 0 0).faissCache.lookup
        (fingerprintInput (ReqDocs.many ["u".data]).urls) = Option.none)
    ∧ ((get_retriever (fun _ => Except.error "FetchError") (ReqDocs.many ["u".data]) "medium"
          (ApiState.mk [] [] 0 0) =
        Except.error "Could not load or extract text from any of the provided documents.")
       ↔ extractAll (fun _ => Except.error "FetchError") (ReqDocs.many ["u".data]).urls = []) :=
  ⟨by decide, by decide,
   resolve_fails_iff_no_passages (fun _ => Except.error "FetchError")
     (ReqDocs.many ["u".data]) "medium" (ApiState.mk [] [] 0 0) (by decide) (by decide)⟩

/-- Claim C9: an empty or absent document set resolves to the persistent
Pinecone store with the state untouched and the fingerprint cache never
consulted (the returned flag is `false`: the early return of api.py line
149 computes no fingerprint). -/
theorem resolve_empty_docs (ingest : Ingest) (docs : ReqDocs) (c : String) (s : ApiState)
    (h : docs.isFalsy = true) :
    get_retriever ingest docs c s =
      Except.ok ({ src := StoreSrc.pinecone, k := kFor c, reranked := false }, s, false) := by
  simp only [get_retriever, h, if_true]

/-- Witness for C9 on the three falsy shapes of the `documents` field:
absent, the empty string, and the empty list. -/
theorem resolve_empty_docs_witness :
    (ReqDocs.absent.isFalsy = true)
    ∧ ((ReqDocs.many []).isFalsy = true)
    ∧ get_retriever (fun _ => Except.ok [0]) ReqDocs.absent "complex" (ApiState.mk [] [] 0 0) =
        Except.ok ({ src := StoreSrc.pinecone, k := 10, reranked := false },
                   ApiState.mk [] [] 0 0, false)
    ∧ get_retriever (fun _ => Except.ok [0]) (ReqDocs.one []) "medium" (ApiState.mk [] [] 0 0) =
        Except.ok ({ src := StoreSrc.pinecone, k := 8, reranked := false },
                   ApiState.mk [] [] 0 0, false) :=
  ⟨by decide, by decide,
   resolve_empty_docs (fun _ => Except.ok [0]) ReqDocs.absent "complex"
     (ApiState.mk [] [] 0 0) (by decide),
   resolve_empty_docs (fun _ => Except.ok [0]) (ReqDocs.one []) "medium"
     (ApiState.mk [] [] 0 0) (by decide)⟩

/-- Counterexample to claim C3: a cache-miss resolve through the FastAPI
path (`get_retriever`) that successfully builds an index stores it in the
in-memory `FAISS_CACHE` but writes nothing to the durable `faiss_indexes`
location — the resulting directory state is still empty, so a later cold
process has nothing to preload for this fingerprint. -/
theorem resolve_no_persistence_cex :
    get_retriever (fun _ => Except.ok [0]) (ReqDocs.many ["u".data]) "medium"
        (ApiState.mk [] [] 0 0) =
      Except.ok ({ src := StoreSrc.faiss 0, k := 8, reranked := false },
                 ApiState.mk [("u".data, 0)] [] 1 1, true)
    ∧ (ApiState.mk [("u".data, 0)] [] 1 1).faissDir.lookup
        (fingerprintInput ["u".data]) = Option.none := by
  constructor
  · decide
  · decide

/-- Claim C3 (amended): a cache-miss build in the FastAPI resolve stores
the index in the in-memory cache under its fingerprint but leaves the
durable storage untouched; it is the Flask variant's
`build_faiss_for_files` that both persists the index to the
fingerprint-named durable location and stores it in the in-memory cache, so
that a cold process preloading from that directory finds it. -/
theorem index_build_memory_vs_disk (ingest : Ingest) (docs : ReqDocs) (c : String)
    (s : ApiState)
    (hne : docs.isFalsy = false)
    (hmiss : s.faissCache.lookup (fingerprintInput docs.urls) = Option.none)
    (hdocs : extractAll ingest docs.urls ≠ []) :
    (∃ vid s', get_retriever ingest docs c s =
          Except.ok ({ src := StoreSrc.faiss vid, k := kFor c, reranked := c == "complex" },
                     s', true)
        ∧ s'.faissCache.lookup (fingerprintInput docs.urls) = Option.some vid
        ∧ s'.faissDir = s.faissDir)
    ∧ (∀ (load : Ingest) (fps : List (List Char)) (fs : FlaskState),
        extractAll load fps ≠ [] →
        ∃ fs', build_faiss_for_files load fps fs =
              (Option.some (fs.nextId, fingerprintInput fps), fs')
          ∧ fs'.faissCache.lookup (fingerprintInput fps) = Option.some fs.nextId
          ∧ fs'.faissDir.lookup (fingerprintInput fps) = Option.some fs.nextId
          ∧ (preload_faiss fs'.faissDir).faissCache.lookup (fingerprintInput fps)
              = Option.some fs.nextId) := by
  constructor
  · refine ⟨s.nextId, _, get_retriever_cache_miss_build ingest docs c s hne hmiss hdocs,
      ?_, rfl⟩
    simp [List.lookup]
  · intro load fps fs hdocs'
    have hE : (extractAll load fps).isEmpty = false := by
      cases h : extractAll load fps with
      | nil => exact absurd h hdocs'
      | cons a t => rfl
    refine ⟨{ faissCache := (fingerprintInput fps, fs.nextId) :: fs.faissCache,
              faissDir := (fingerprintInput fps, fs.nextId) :: fs.faissDir,
              nextId := fs.nextId + 1 }, ?_, ?_, ?_, ?_⟩
    · simp only [build_faiss_for_files, hE, Bool.false_eq_true, if_false]
    · simp [List.lookup]
    · simp [List.lookup]
    · simp [preload_faiss, List.lookup]

/-- Witness for C3 (amended) on the document set `["u"]` from empty api and
flask states. -/
theorem index_build_memory_vs_disk_witness :
    ((ReqDocs.many ["u".data]).isFalsy = false)
    ∧ ((ApiState.mk [] [] 0 0).faissCache.lookup
        (fingerprintInput (ReqDocs.many ["u".data]).urls) = Option.none)
    ∧ (extractAll (fun _ => Except.ok [0]) (ReqDocs.many ["u".data]).urls ≠ [])
    ∧ ((∃ vid s', get_retriever (fun _ => Except.ok [0]) (ReqDocs.many ["u".data]) "medium"
            (ApiState.mk [] [] 0 0) =
            Except.ok ({ src := StoreSrc.faiss vid, k := kFor "medium",
                         reranked := "medium" == "complex" }, s', true)
          ∧ s'.faissCache.lookup (fingerprintInput (ReqDocs.many ["u".data]).urls)
              = Option.some vid
          ∧ s'.faissDir = (ApiState.mk [] [] 0 0).faissDir)
       ∧ (∀ (load : Ingest) (fps : List (List Char)) (fs : FlaskState),
            extractAll load fps ≠ [] →
            ∃ fs', build_faiss_for_files load fps fs =
                  (Option.some (fs.nextId, fingerprintInput fps), fs')
              ∧ fs'.faissCache.lookup (fingerprintInput fps) = Option.some fs.nextId
              ∧ fs'.faissDir.lookup (fingerprintInput fps) = Option.some fs.nextId
              ∧ (preload_faiss fs'.faissDir).faissCache.lookup (fingerprintInput fps)
                  = Option.some fs.nextId)) :=
  ⟨by decide, by decide, by decide,
   index_build_memory_vs_disk (fun _ => Except.ok [0]) (ReqDocs.many ["u".data]) "medium"
     (ApiState.mk [] [] 0 0) (by decide) (by decide) (by decide)⟩

/-- Counterexample to claim C4: the question
`"compare analyze evaluate contrast both multiple"` classifies as
`complex` (so the claim demands `k = 10` with re-ranking), yet the
retriever `process_claims` builds for it — the single retriever built with
the hard-coded `dominant = 'medium'` — has `k = 8` and no re-ranking. -/
theorem per_question_routing_cex :
    classify_question_complexity "compare analyze evaluate contrast both multiple".data
      = "complex"
    ∧ kFor "complex" = 10
    ∧ process_claims_retriever (fun _ => Except.ok [0]) (ReqDocs.many ["u".data])
        (ApiState.mk [] [] 0 0) =
      Except.ok ({ src := StoreSrc.faiss 0, k := 8, reranked := false },
                 ApiState.mk [("u".data, 0)] [] 1 1, true) := by
  refine ⟨by decide, by decide, by decide⟩

/-- Claim C4 (amended): `process_claims` routes no question through the
classifier; it fixes the tier `'medium'` for the whole request, so whenever
its retriever construction succeeds the retriever has `k = 8` and
re-ranking disabled, for all questions alike. -/
theorem process_claims_fixed_medium (ingest : Ingest) (docs : ReqDocs) (s : ApiState)
    (r : Retriever) (s' : ApiState) (b : Bool)
    (h : process_claims_retriever ingest docs s = Except.ok (r, s', b)) :
    r.k = 8 ∧ r.reranked = false := by
  unfold process_claims_retriever at h
  cases hb : docs.isFalsy with
  | true =>
      have hg : get_retriever ingest docs "medium" s =
          Except.ok ({ src := StoreSrc.pinecone, k := kFor "medium", reranked := false },
                     s, false) := by
        simp only [get_retriever, hb, if_true]
      rw [hg] at h
      simp only [Except.ok.injEq, Prod.mk.injEq] at h
      obtain ⟨hr, -⟩ := h
      rw [← hr]
      exact ⟨rfl, rfl⟩
  | false =>
      cases hl : (s.faissCache.lookup (fingerprintInput docs.urls)) with
      | some vid =>
          rw [get_retriever_cache_hit ingest docs "medium" s vid hb hl] at h
          simp only [Except.ok.injEq, Prod.mk.injEq] at h
          obtain ⟨hr, -⟩ := h
          rw [← hr]
          exact ⟨rfl, rfl⟩
      | none =>
          cases hE : extractAll ingest docs.urls with
          | nil =>
              have hg : get_retriever ingest docs "medium" s =
                  Except.error
                    "Could not load or extract text from any of the provided documents." := by
                simp only [get_retriever, hb, Bool.false_eq_true, if_false, hl, hE,
                  List.isEmpty_nil, if_true]
              rw [hg] at h
              exact Except.noConfusion h
          | cons a t =>
              have hdocs : extractAll ingest docs.urls ≠ [] := by
                rw [hE]; exact List.cons_ne_nil a t
              rw [get_retriever_cache_miss_build ingest docs "medium" s hb hl hdocs] at h
              simp only [Except.ok.injEq, Prod.mk.injEq] at h
              obtain ⟨hr, -⟩ := h
              rw [← hr]
              exact ⟨rfl, rfl⟩

/-- Witness for C4 (amended) at a concrete successful retriever
construction. -/
theorem process_claims_fixed_medium_witness :
    process_claims_retriever (fun _ => Except.ok [0]) (ReqDocs.many ["u".data])
        (ApiState.mk [] [] 0 0) =
      Except.ok ({ src := StoreSrc.faiss 0, k := 8, reranked := false },
                 ApiState.mk [("u".data, 0)] [] 1 1, true)
    ∧ (({ src := StoreSrc.faiss 0, k := 8, reranked := false } : Retriever).k = 8
       ∧ ({ src := StoreSrc.faiss 0, k := 8, reranked := false } : Retriever).reranked = false) :=
  ⟨by decide,
   process_claims_fixed_medium (fun _ => Except.ok [0]) (ReqDocs.many ["u".data])
     (ApiState.mk [] [] 0 0) { src := StoreSrc.faiss 0, k := 8, reranked := false }
     (ApiState.mk [("u".data, 0)] [] 1 1) true (by decide)⟩

/-- Claim C10: the fingerprint concatenates the sorted locators with no
separator before hashing, so the non-permutation-equivalent locator lists
`["ab", "c"]` and `["a", "bc"]` hash the same input, receive the same
fingerprint under any digest, and share one index-cache entry: after
`["ab", "c"]` is resolved and built, resolving `["a", "bc"]` is a cache
hit on the same store with no further build. -/
theorem fingerprint_no_separator_collision :
    fingerprintInput ["ab".data, "c".data] = fingerprintInput ["a".data, "bc".data]
    ∧ ¬ (["ab".data, "c".data] : List (List Char)).Perm ["a".data, "bc".data]
    ∧ (∀ h : List Char → List Char,
        fingerprint h ["ab".data, "c".data] = fingerprint h ["a".data, "bc".data])
    ∧ get_retriever (fun _ => Except.ok [0]) (ReqDocs.many ["ab".data, "c".data]) "medium"
        (ApiState.mk [] [] 0 0) =
      Except.ok ({ src := StoreSrc.faiss 0, k := 8, reranked := false },
                 ApiState.mk [("abc".data, 0)] [] 1 1, true)
    ∧ get_retriever (fun _ => Except.ok [0]) (ReqDocs.many ["a".data, "bc".data]) "medium"
        (ApiState.mk [("abc".data, 0)] [] 1 1) =
      Except.ok ({ src := StoreSrc.faiss 0, k := 8, reranked := false },
                 ApiState.mk [("abc".data, 0)] [] 1 1, true) :=
  ⟨by decide, by decide, fun h => congrArg h (by decide), by decide, by decide⟩

/- ------------------------------------------------------------------ -/
/- Query-Answer Cache: rag_logic.py QueryCache + CachedRAGChain        -/
/- ------------------------------------------------------------------ -/

/-- rag_logic.py line 26,
`hashlib.md5(query.strip().lower().encode()).hexdigest()`: the cache key is
a digest of the trimmed, case-folded question.  The MD5 hexdigest is
modelled as the identity on its input (a deterministic digest maps equal
normalized questions to equal keys, which is the property the cache
behavior depends on). -/
def get_cache_key (query : List Char) : List Char := lowerStr (stripStr query)

/-- The state of the global `query_cache` (rag_logic.py lines 19-44): the
key-to-answer map, plus the number of synthesis-chain invocations actually
performed (`self.chain.ainvoke` calls), which the claims count. -/
structure QueryCacheState where
  cache : List (List Char × String)
  synth_calls : Nat
deriving DecidableEq

/-- rag_logic.py lines 141-168, `CachedRAGChain.ainvoke` with the
underlying retrieval + synthesis chain abstracted as `chain` (its cleaned
answer for a question).  Faithful detail: the hit test is Python's
`if cached_response:` — a stored EMPTY answer is falsy, so it is treated as
a miss and the chain is invoked again.  On a miss the (cleaned) answer is
stored under the normalized key and the synthesis counter increments. -/
def ainvoke (chain : List Char → String) (query : List Char) (s : QueryCacheState) :
    String × QueryCacheState :=
  let key := get_cache_key query
  let hit :=
    match s.cache.lookup key with
    | Option.some v => if v = "" then Option.none else Option.some v
    | Option.none => Option.none
  match hit with
  | Option.some v => (v, s)
  | Option.none =>
      let answer := chain query
      (answer, { cache := (key, answer) :: s.cache, synth_calls := s.synth_calls + 1 })

/-- Counterexample to claim C7: when the first ask stores the empty string
(a possible cleaned answer), the identical second ask is NOT served from
the cache — the falsy `if cached_response:` test treats the stored `""` as
a miss, and the synthesis chain is invoked a second time (2 calls, where
the claim requires zero additional calls). -/
theorem query_cache_empty_answer_cex :
    ((ainvoke (fun _ => "") "q".data (QueryCacheState.mk [] 0)).2).synth_calls = 1
    ∧ ((ainvoke (fun _ => "") "q".data
        (ainvoke (fun _ => "") "q".data (QueryCacheState.mk [] 0)).2).2).synth_calls = 2 := by
  exact ⟨by decide, by decide⟩

/-- Claim C7 (amended): asking a second question that is identical to a
previous one after trimming and case-folding returns the previously
computed answer with zero additional synthesis calls, PROVIDED the stored
answer is non-empty — the resulting answer is the first answer and the
state (cache and synthesis-call counter) is completely unchanged. -/
theorem query_cache_hit_second_ask (chain : List Char → String) (q1 q2 : List Char)
    (s : QueryCacheState)
    (hkey : get_cache_key q1 = get_cache_key q2)
    (hne : (ainvoke chain q1 s).1 ≠ "") :
    ainvoke chain q2 (ainvoke chain q1 s).2 =
      ((ainvoke chain q1 s).1, (ainvoke chain q1 s).2) := by
  cases hl : s.cache.lookup (get_cache_key q1) with
  | none =>
      have h1 : ainvoke chain q1 s =
          (chain q1, QueryCacheState.mk ((get_cache_key q1, chain q1) :: s.cache)
            (s.synth_calls + 1)) := by
        simp only [ainvoke, hl]
      rw [h1] at hne ⊢
      simp only [ainvoke, ← hkey, List.lookup, beq_self_eq_true, if_pos, if_neg hne]
  | some v =>
      by_cases hv : v = ""
      · subst hv
        have h1 : ainvoke chain q1 s =
            (chain q1, QueryCacheState.mk ((get_cache_key q1, chain q1) :: s.cache)
              (s.synth_calls + 1)) := by
          simp [ainvoke, hl]
        rw [h1] at hne ⊢
        simp only [ainvoke, ← hkey, List.lookup, beq_self_eq_true, if_pos, if_neg hne]
      · have h1 : ainvoke chain q1 s = (v, s) := by
          simp only [ainvoke, hl, if_neg hv]
        rw [h1]
        simp only [ainvoke, ← hkey, hl, if_neg hv]

/-- Witness for C7 (amended): `" Ask "` and `"ask"` normalize to the same
key; the second ask returns the first answer with the state unchanged. -/
theorem query_cache_hit_second_ask_witness :
    get_cache_key " Ask ".data = get_cache_key "ask".data
    ∧ (ainvoke (fun _ => "answer") " Ask ".data (QueryCacheState.mk [] 0)).1 ≠ ""
    ∧ ainvoke (fun _ => "answer") "ask".data
        (ainvoke (fun _ => "answer") " Ask ".data (QueryCacheState.mk [] 0)).2 =
      ((ainvoke (fun _ => "answer") " Ask ".data (QueryCacheState.mk [] 0)).1,
       (ainvoke (fun _ => "answer") " Ask ".data (QueryCacheState.mk [] 0)).2) :=
  ⟨by decide, by decide,
   query_cache_hit_second_ask (fun _ => "answer") " Ask ".data "ask".data
     (QueryCacheState.mk [] 0) (by decide) (by decide)⟩

/- ------------------------------------------------------------------ -/
/- Query Executor: api.py process_claims (lines 254-272)               -/
/- ------------------------------------------------------------------ -/

/-- The per-question call `await rag.ainvoke({"input": q})` as seen by
`process_claims`: either the result dictionary — modelled by its optional
`"answer"` entry — or the exception the chain raised (network error,
malformed-response exception, collaborator exception). -/
def RagChain : Type := List Char → Except String (Option String)

/-- The body of `_answer` (api.py lines 262-269): await the chain and take
`res.get("answer", "error")` — a result dictionary without an `"answer"`
key degrades to the `"error"` placeholder, but a RAISED exception
propagates out of `_answer`. -/
def answerOne (rag : RagChain) (q : List Char) : Except String String :=
  match rag q with
  | Except.error e => Except.error e
  | Except.ok res => Except.ok (res.getD "error")

/-- `await asyncio.gather(*tasks)` with the default
`return_exceptions=False` (api.py line 271): if every task succeeds the
results are collected in task order; if any task raises, `gather` re-raises
that exception instead of returning a list. -/
def asyncio_gather : List (Except String String) → Except String (List String)
  | [] => Except.ok []
  | Except.error e :: _ => Except.error e
  | Except.ok a :: rest =>
      match asyncio_gather rest with
      | Except.ok answers => Except.ok (a :: answers)
      | Except.error e => Except.error e

/-- api.py lines 254-272: `process_claims` maps `_answer` over the
questions and gathers — the answers (or the first raised exception) of the
whole batch. -/
def process_claims_answers (rag : RagChain) (questions : List (List Char)) :
    Except String (List String) :=
  asyncio_gather (questions.map (answerOne rag))

/-- Counterexample to claim C1: in a batch of three questions where the
synthesis call for `"q2"` raises a `SynthesisError`, the batch call does
not return a `BatchResult` with an error placeholder at that position — it
raises: `_answer` has no exception handler and `asyncio.gather` is called
without `return_exceptions=True`. -/
theorem batch_fault_isolation_cex :
    process_claims_answers
      (fun q => if q == "q2".data then Except.error "SynthesisError"
                else Except.ok (Option.some "ok"))
      ["q1".data, "q2".data, "q3".data] = Except.error "SynthesisError" := by
  decide

/-- Claim C1 (amended): per-question fault handling in `process_claims` is
split.  A malformed synthesis RESULT — a result dictionary with no answer
field — degrades to the `"error"` placeholder at that question's position
while every sibling's answer is kept in input order; but a synthesis call
that RAISES makes the whole batch call raise instead of returning a
result list. -/
theorem batch_error_behavior (rag : RagChain) (questions : List (List Char)) :
    ((∀ q ∈ questions, (rag q).isOk = true) →
      process_claims_answers rag questions =
        Except.ok (questions.map (fun q =>
          match rag q with
          | Except.ok res => res.getD "error"
          | Except.error _ => "error")))
    ∧ ((∃ q ∈ questions, (rag q).isOk = false) →
      ∃ e, process_claims_answers rag questions = Except.error e) := by
  constructor
  · intro hok
    induction questions with
    | nil => rfl
    | cons q qs ih =>
        have hq := hok q (List.mem_cons_self q qs)
        cases hr : rag q with
        | error e => rw [hr] at hq; exact absurd hq (by simp [Except.isOk, Except.toBool])
        | ok res =>
            have ih' := ih (fun x hx => hok x (List.mem_cons_of_mem q hx))
            simp only [process_claims_answers] at ih'
            simp only [process_claims_answers, List.map, answerOne, hr, asyncio_gather, ih']
  · intro hex
    induction questions with
    | nil => obtain ⟨q, hq, -⟩ := hex; exact absurd hq (List.not_mem_nil q)
    | cons q qs ih =>
        cases hr : rag q with
        | error e =>
            refine ⟨e, ?_⟩
            simp only [process_claims_answers, List.map, answerOne, hr, asyncio_gather]
        | ok res =>
            obtain ⟨q', hq', hfail⟩ := hex
            rcases List.mem_cons.mp hq' with hq'' | hq''
            · rw [hq'', hr] at hfail
              exact absurd hfail (by simp [Except.isOk, Except.toBool])
            · obtain ⟨e, he⟩ := ih ⟨q', hq'', hfail⟩
              refine ⟨e, ?_⟩
              simp only [process_claims_answers] at he
              simp only [process_claims_answers, List.map, answerOne, hr, asyncio_gather, he]

/-- Witness for C1 (amended): a batch whose second question yields a
result without an answer field produces `["A", "error", "A"]` in order,
and a batch whose second question raises makes the whole call raise. -/
theorem batch_error_behavior_witness :
    (∀ q ∈ (["q1".data, "q2".data, "q3".data] : List (List Char)),
      ((fun q => Except.ok (if q == "q2".data then Option.none else Option.some "A") :
          RagChain) q).isOk = true)
    ∧ process_claims_answers
        (fun q => Except.ok (if q == "q2".data then Option.none else Option.some "A"))
        ["q1".data, "q2".data, "q3".data] = Except.ok ["A", "error", "A"]
    ∧ (∃ e, process_claims_answers
        (fun q => if q == "q2".data then Except.error "boom"
                  else Except.ok (Option.some "A"))
        ["q1".data, "q2".data, "q3".data] = Except.error e) :=
  ⟨by decide,
   (batch_error_behavior
     (fun q => Except.ok (if q == "q2".data then Option.none else Option.some "A"))
     ["q1".data, "q2".data, "q3".data]).1 (by decide),
   (batch_error_behavior
     (fun q => if q == "q2".data then Except.error "boom" else Except.ok (Option.some "A"))
     ["q1".data, "q2".data, "q3".data]).2 ⟨"q2".data, by decide, by decide⟩⟩

end DocRAG
